import Mathlib

/-!
Verification of the hierarchical subsystem lifecycle coordinator
(threadsafe_queue.hh, subsystem.hh, subsystem.cc).

The embedding is shallow and sequential:

* `ThreadsafeQueue.Queue T` models the MPSC bus as a list of
  `Option T` values, front at the head.  Each queue slot is the
  `std::unique_ptr<T>` the C++ queue stores; `none` is the null
  `unique_ptr`, i.e. the terminator marker that `terminate()` enqueues.
* `Subsystem` carries the fields of `management::Subsystem`
  (subsystem.cc variant); `World` carries the shared registry state
  (`detail::SystemState`, tag to state) and every subsystem's bus,
  both as functions from tags.
* Blocking calls are modelled by `Option`: `wait_and_pop` on an empty
  queue and `commit_state` whose wait-for-parents predicate is false at
  its evaluation point return `none` (the call blocks; no concurrent
  producer is modelled).
* `handle_self_event_trace` records, per SELF event target, the ordered
  side-effect calls the worker makes (hook calls, cancel-flag writes,
  bus drain/terminate, commit), read off the `switch` in
  `Subsystem::handle_self_event` and `Subsystem::stop_bus`.

Both copies of the wait-for-parents gate are embedded:
`wait_for_parents` follows subsystem.cc lines 247-282 and
`wait_for_parents_hh` follows the header template, subsystem.hh lines
322-351; their final disjuncts differ.
-/

/-- SubsystemTag is `std::uint32_t`; tags are only generated, compared
and stored, never overflowed in the modelled paths, so `Nat` is used. -/
abbrev SubsystemTag := Nat

/-- Enum `SubsystemState` (subsystem.hh line 74): INIT, RUNNING,
STOPPED, ERROR, DESTROY. -/
inductive SubsystemState : Type
  | INIT
  | RUNNING
  | STOPPED
  | ERROR
  | DESTROY
deriving DecidableEq

open SubsystemState

/-- Originator field of `SubsystemIPC` (the anonymous enum
`{ PARENT, CHILD, SELF } from`). -/
inductive IPCFrom : Type
  | PARENT
  | CHILD
  | SELF
deriving DecidableEq

/-- Struct `SubsystemIPC` (subsystem.hh lines 82-87).  The C++ field
`from` is a reserved word in Lean and is called `ipc_from` here. -/
structure SubsystemIPC where
  ipc_from : IPCFrom
  tag : SubsystemTag
  state : SubsystemState
deriving DecidableEq

namespace ThreadsafeQueue

/-- The queue contents: `std::queue<std::unique_ptr<T>>`, front first.
A `none` entry is a null `unique_ptr`, i.e. the terminator. -/
abbrev Queue (T : Type) := List (Option T)

/-- `ThreadsafeQueue::push(T)` (threadsafe_queue.hh lines 83-91):
wraps the value and enqueues it unconditionally. -/
def push {T : Type} (q : Queue T) (new_value : T) : Queue T :=
  q ++ [some new_value]

/-- The private `push(terminator)` overload (threadsafe_queue.hh lines
122-130): enqueues the null pointer itself. -/
def push_term {T : Type} (q : Queue T) : Queue T :=
  q ++ [none]

/-- `ThreadsafeQueue::terminate()` (threadsafe_queue.hh line 96):
`push(terminator())`. -/
def terminate {T : Type} (q : Queue T) : Queue T :=
  push_term q

/-- `ThreadsafeQueue::wait_and_pop()` (threadsafe_queue.hh lines
53-60): blocks until the queue is non-empty, then pops the front.
Blocking forever (empty queue, no producer) is modelled as `none`;
a completed call returns `some (front, rest)`. -/
def wait_and_pop {T : Type} (q : Queue T) : Option (Option T × Queue T) :=
  match q with
  | [] => none
  | x :: rest => some (x, rest)

/-- `ThreadsafeQueue::try_pop()` (threadsafe_queue.hh lines 66-76):
returns the null pointer on an empty queue, otherwise pops and returns
the front (which is itself the null pointer when the front is the
terminator). -/
def try_pop {T : Type} (q : Queue T) : Option T × Queue T :=
  match q with
  | [] => (none, [])
  | x :: rest => (x, rest)

/-- `ThreadsafeQueue::size()` (threadsafe_queue.hh lines 101-105). -/
def size {T : Type} (q : Queue T) : Nat :=
  q.length

end ThreadsafeQueue

/-- The per-subsystem fields of `management::Subsystem` (subsystem.cc
variant) that the verified paths touch: tag, name, state, parent and
child tag sets (std::set, kept as duplicate-free lists), the atomic
cancel flag, and the subsystem's own bus. -/
structure Subsystem where
  m_tag : SubsystemTag
  m_name : String
  m_state : SubsystemState
  m_parents : List SubsystemTag
  m_children : List SubsystemTag
  m_cancel_flag : Bool
  m_bus : ThreadsafeQueue.Queue SubsystemIPC
deriving DecidableEq

/-- Bus map: each tag's subsystem bus, as seen from `put_message`
calls made on other subsystems. -/
abbrev Buses := SubsystemTag → ThreadsafeQueue.Queue SubsystemIPC

/-- The shared state surrounding one subsystem: the registry
(`detail::SystemState`, tag to committed state, the `.first` of each
map entry) and every subsystem's bus. -/
structure World where
  reg : SubsystemTag → SubsystemState
  buses : Buses

/-- `Subsystem::get_state()` (accessor on `SubsystemLink`). -/
def get_state (self : Subsystem) : SubsystemState :=
  self.m_state

/-- `Subsystem::set_cancel_flag(bool)` (subsystem.cc lines 432-435). -/
def set_cancel_flag (self : Subsystem) (b : Bool) : Subsystem :=
  { self with m_cancel_flag := b }

/-- Modelled from the spec: `has_parents()` is called at subsystem.cc
line 252 but its body lives in the header this revision of
subsystem.cc was compiled against, which is not in the repository.
The spec's parents_ok first disjunct is `parents.empty()`, so
`has_parents` is its negation. -/
def has_parents (self : Subsystem) : Bool :=
  !self.m_parents.isEmpty

/-- `Subsystem::remove_parent(tag)` (subsystem.cc lines 325-337):
erases the tag from the parent set; absent tags are a no-op. -/
def remove_parent (self : Subsystem) (tag : SubsystemTag) : Subsystem :=
  { self with m_parents := self.m_parents.erase tag }

/-- `Subsystem::remove_child(tag)` (subsystem.cc lines 311-323). -/
def remove_child (self : Subsystem) (tag : SubsystemTag) : Subsystem :=
  { self with m_children := self.m_children.erase tag }

/-- `Subsystem::put_message(msg)` (subsystem.cc lines 284-288): pushes
the message on this subsystem's own bus and notifies the condition. -/
def put_message (self : Subsystem) (msg : SubsystemIPC) : Subsystem :=
  { self with m_bus := ThreadsafeQueue.push self.m_bus msg }

/-- The drain loop of `Subsystem::stop_bus` (subsystem.cc lines
237-240): `while (auto trash = m_bus.try_pop()) {}` pops until
`try_pop` returns the null pointer, i.e. until the queue is empty or a
terminator was popped. -/
def drain_loop : ThreadsafeQueue.Queue SubsystemIPC → ThreadsafeQueue.Queue SubsystemIPC
  | [] => []
  | none :: rest => rest
  | some _ :: rest => drain_loop rest

/-- `Subsystem::stop_bus()` (subsystem.cc lines 235-245): drain the
bus, `m_bus.terminate()`, then `set_cancel_flag(true)`. -/
def stop_bus (self : Subsystem) : Subsystem :=
  { self with
      m_bus := ThreadsafeQueue.terminate (drain_loop self.m_bus),
      m_cancel_flag := true }

/-- `Subsystem::wait_for_parents()` (subsystem.cc lines 247-282).
Returns the predicate value together with the subsystem, whose cancel
flag the call resets when it passes through the cancel disjunct.  The
registry read `m_sysstate_ref.get(p).first` is `reg p`. -/
def wait_for_parents (reg : SubsystemTag → SubsystemState) (self : Subsystem) :
    Bool × Subsystem :=
  if !has_parents self then (true, self)
  else if self.m_state = DESTROY then (true, self)
  else if self.m_cancel_flag then (true, set_cancel_flag self false)
  else (self.m_parents.all fun p => decide (reg p = RUNNING ∨ reg p = DESTROY), self)

/-- `Subsystem::wait_for_parents()` of the header template variant
(subsystem.hh lines 322-351).  Identical shape, but the final
disjunct accepts every parent whose state is neither INIT nor
DESTROY. -/
def wait_for_parents_hh (reg : SubsystemTag → SubsystemState) (self : Subsystem) :
    Bool × Subsystem :=
  if self.m_parents.length = 0 then (true, self)
  else if self.m_state = DESTROY then (true, self)
  else if self.m_cancel_flag then (true, set_cancel_flag self false)
  else (self.m_parents.all fun p => decide (reg p ≠ INIT ∧ reg p ≠ DESTROY), self)

/-- The fast-path `test_fn` of `Subsystem::commit_state` (subsystem.cc
lines 360-375): false (skip the commit) when the state is unchanged or
the current state is DESTROY. -/
def test_fn (old_state new_state : SubsystemState) : Bool :=
  if old_state = new_state then false
  else if old_state = DESTROY then false
  else true

/-- Pushing a message on the bus of subsystem `t`, i.e. the
`p.put_message(msg)` call seen from the bus map. -/
def bus_put_message (bs : Buses) (t : SubsystemTag) (msg : SubsystemIPC) : Buses :=
  fun u => if u = t then ThreadsafeQueue.push (bs u) msg else bs u

/-- `Subsystem::for_all_active_parents` (subsystem.hh lines 377-387):
runs the runnable for each parent whose registry state is RUNNING. -/
def for_all_active_parents (reg : SubsystemTag → SubsystemState)
    (parents : List SubsystemTag) (runnable : Buses → SubsystemTag → Buses)
    (bs : Buses) : Buses :=
  parents.foldl (fun bs p => if reg p = RUNNING then runnable bs p else bs) bs

/-- `Subsystem::for_all_active_children` (subsystem.hh lines 394-404):
runs the runnable for each child whose registry state is not
DESTROY. -/
def for_all_active_children (reg : SubsystemTag → SubsystemState)
    (children : List SubsystemTag) (runnable : Buses → SubsystemTag → Buses)
    (bs : Buses) : Buses :=
  children.foldl (fun bs c => if reg c ≠ DESTROY then runnable bs c else bs) bs

/-- The committed half of `Subsystem::commit_state` (subsystem.cc lines
391-401): write `m_state`, write the registry entry, then fan out
`{CHILD, m_tag, m_state}` to active parents and `{PARENT, m_tag,
m_state}` to active children; the fan-out loops read the registry after
the update. -/
def do_commit (self : Subsystem) (w : World) (new_state : SubsystemState) :
    Subsystem × World :=
  let reg1 : SubsystemTag → SubsystemState :=
    fun t => if t = self.m_tag then new_state else w.reg t
  let buses1 := for_all_active_parents reg1 self.m_parents
    (fun bs p => bus_put_message bs p ⟨IPCFrom.CHILD, self.m_tag, new_state⟩) w.buses
  let buses2 := for_all_active_children reg1 self.m_children
    (fun bs c => bus_put_message bs c ⟨IPCFrom.PARENT, self.m_tag, new_state⟩) buses1
  ({ self with m_state := new_state }, ⟨reg1, buses2⟩)

/-- `Subsystem::commit_state(new_state)` (subsystem.cc lines 357-402).
The fast check returns with nothing changed; otherwise the worker
evaluates `wait_for_parents()` (once, in this interference-free
model): if it holds the commit and fan-out run with the gate's
resulting cancel flag, if not the thread blocks on `m_proceed_signal`,
modelled as `none`. -/
def commit_state (self : Subsystem) (w : World) (new_state : SubsystemState) :
    Option (Subsystem × World) :=
  if test_fn self.m_state new_state = false then some (self, w)
  else if (wait_for_parents w.reg self).1 then
    some (do_commit (wait_for_parents w.reg self).2 w new_state)
  else none

/-- `Subsystem::start()` (subsystem.cc lines 519-521). -/
def start (self : Subsystem) : Subsystem :=
  put_message self ⟨IPCFrom.SELF, self.m_tag, RUNNING⟩

/-- `Subsystem::stop()` (subsystem.cc lines 523-525). -/
def stop (self : Subsystem) : Subsystem :=
  put_message self ⟨IPCFrom.SELF, self.m_tag, STOPPED⟩

/-- `Subsystem::error()` (subsystem.cc lines 527-529). -/
def error (self : Subsystem) : Subsystem :=
  put_message self ⟨IPCFrom.SELF, self.m_tag, ERROR⟩

/-- `Subsystem::destroy()` (subsystem.cc lines 531-533). -/
def destroy (self : Subsystem) : Subsystem :=
  put_message self ⟨IPCFrom.SELF, self.m_tag, DESTROY⟩

/-- Default `Subsystem::on_parent(event)` (subsystem.cc lines 505-517):
cascade the parent's new state into the matching self trigger. -/
def on_parent (self : Subsystem) (event : SubsystemIPC) : Subsystem :=
  match event.state with
  | ERROR => error self
  | DESTROY => destroy self
  | STOPPED => stop self
  | RUNNING => start self
  | INIT => self

/-- `Subsystem::handle_parent_event(event)` (subsystem.cc lines
460-477): on DESTROY set the cancel flag and remove the parent, every
other state only falls through; then hand off to `on_parent`.  All
five states are valid, so the unreachable `default` arm is absent. -/
def handle_parent_event (self : Subsystem) (event : SubsystemIPC) : Subsystem :=
  let self1 :=
    match event.state with
    | DESTROY => remove_parent (set_cancel_flag self true) event.tag
    | _ => self
  on_parent self1 event

/-- `Subsystem::handle_self_event(event)` (subsystem.cc lines 479-503)
with the default (empty) `on_start/on_stop/on_error/on_destroy` hooks:
DESTROY additionally sets the cancel flag and runs `stop_bus` before
the commit; INIT falls into the `default:` arm which logs and returns
without committing. -/
def handle_self_event (self : Subsystem) (w : World) (event : SubsystemIPC) :
    Option (Subsystem × World) :=
  match event.state with
  | RUNNING => commit_state self w RUNNING
  | ERROR => commit_state self w ERROR
  | STOPPED => commit_state self w STOPPED
  | DESTROY => commit_state (stop_bus (set_cancel_flag self true)) w DESTROY
  | INIT => some (self, w)

/-- Observable side-effect actions of the SELF-event dispatch, for
ordering properties. -/
inductive Act : Type
  | set_cancel (b : Bool)
  | call_on_start
  | call_on_stop
  | call_on_error
  | call_on_destroy
  | bus_drain
  | bus_terminate
  | commit (s : SubsystemState)
deriving DecidableEq

/-- Action order of `Subsystem::stop_bus()` (subsystem.cc lines
235-245): drain, `m_bus.terminate()`, `set_cancel_flag(true)`. -/
def stop_bus_trace : List Act :=
  [Act.bus_drain, Act.bus_terminate, Act.set_cancel true]

/-- Action order of `Subsystem::handle_self_event` (subsystem.cc lines
479-503) per target state: the switch arm's side effects followed by
`commit_state(event.state)`; INIT hits the `default:` arm and returns
without committing. -/
def handle_self_event_trace : SubsystemState → List Act
  | RUNNING => [Act.call_on_start, Act.commit RUNNING]
  | ERROR => [Act.call_on_error, Act.commit ERROR]
  | STOPPED => [Act.call_on_stop, Act.commit STOPPED]
  | DESTROY =>
      [Act.set_cancel true, Act.call_on_destroy] ++ stop_bus_trace
        ++ [Act.commit DESTROY]
  | INIT => []

/-- The condition of the capacity assertion on the handle-insert path
`SystemState::put(key, Subsystem&)` (subsystem.cc line 115): the C++
is `assert(map_ref.size() >= m_max_subsystems && "Attempting to exceed
max number of subsystems");`, so the asserted condition is
`size >= max`; the assertion fires when this is false. -/
def capacity_assert_cond (map_size m_max_subsystems : Nat) : Bool :=
  decide (map_size ≥ m_max_subsystems)

/-- Fixture event used by concrete witnesses. -/
def sample_event : SubsystemIPC :=
  ⟨IPCFrom.CHILD, 3, RUNNING⟩

/-- Fixture PARENT/ERROR event from tag 7. -/
def ev_parent_error : SubsystemIPC :=
  ⟨IPCFrom.PARENT, 7, ERROR⟩

/-- Fixture PARENT/DESTROY event from tag 7. -/
def ev_parent_destroy : SubsystemIPC :=
  ⟨IPCFrom.PARENT, 7, DESTROY⟩

/-- Fixture SELF/STOPPED event. -/
def ev_self_stopped : SubsystemIPC :=
  ⟨IPCFrom.SELF, 1, STOPPED⟩

/-- Fixture subsystem with a single parent, tag 7, cancel flag off. -/
def sub_one_parent : Subsystem :=
  ⟨1, "c", INIT, [7], [], false, []⟩

/-- Fixture subsystem with a single parent and the cancel flag set. -/
def cancel_sub : Subsystem :=
  ⟨1, "c", INIT, [7], [], true, []⟩

/-- Fixture subsystem already in DESTROY. -/
def destroyed_sub : Subsystem :=
  ⟨1, "d", DESTROY, [], [], false, []⟩

/-- Fixture subsystem whose bus holds two pending ordinary events. -/
def busy_sub : Subsystem :=
  ⟨1, "b", RUNNING, [], [], false, [some sample_event, some ev_parent_error]⟩

/-- Fixture subsystem with parent 2 and child 3, committing from INIT. -/
def fan_sub : Subsystem :=
  ⟨1, "f", INIT, [2], [3], false, []⟩

/-- Fixture registry: tag 7 is STOPPED, everything else INIT. -/
def reg_parent_stopped : SubsystemTag → SubsystemState :=
  fun t => if t = 7 then STOPPED else INIT

/-- Fixture world with an empty registry view and empty buses. -/
def w0 : World :=
  ⟨fun _ => INIT, fun _ => []⟩

/-- Fixture world for the fan-out witness: parent 2 is RUNNING, child 3
is INIT, all buses empty. -/
def fan_world : World :=
  ⟨fun t => if t = 2 then RUNNING else INIT, fun _ => []⟩

/-- Helper: the subsystem returned by `wait_for_parents` is the input,
possibly with the cancel flag cleared. -/
lemma wait_for_parents_snd_cases (reg : SubsystemTag → SubsystemState)
    (self : Subsystem) :
    (wait_for_parents reg self).2 = self
      ∨ (wait_for_parents reg self).2 = set_cancel_flag self false := by
  unfold wait_for_parents
  by_cases h1 : has_parents self
  · by_cases h2 : self.m_state = DESTROY
    · simp [h1, h2]
    · by_cases h3 : self.m_cancel_flag <;> simp [h1, h2, h3]
  · simp [h1]

/-- Helper: `wait_for_parents` changes no field other than the cancel
flag. -/
lemma wait_for_parents_snd_fields (reg : SubsystemTag → SubsystemState)
    (self : Subsystem) :
    (wait_for_parents reg self).2.m_tag = self.m_tag
      ∧ (wait_for_parents reg self).2.m_parents = self.m_parents
      ∧ (wait_for_parents reg self).2.m_children = self.m_children := by
  rcases wait_for_parents_snd_cases reg self with h | h <;>
    rw [h] <;> simp [set_cancel_flag]

/-- Helper: a fold that pushes `msg` on the bus of each listed tag
satisfying `P` appends `msg` exactly to the buses of listed tags
satisfying `P`, provided the list has no duplicates. -/
lemma foldl_bus_put_filter (P : SubsystemTag → Prop) [DecidablePred P]
    (msg : SubsystemIPC) (ts : List SubsystemTag) (bs : Buses)
    (hnd : ts.Nodup) (t : SubsystemTag) :
    (ts.foldl (fun bs p => if P p then bus_put_message bs p msg else bs) bs) t
      = bs t ++ (if t ∈ ts ∧ P t then [some msg] else []) := by
  induction ts generalizing bs with
  | nil => simp
  | cons p rest ih =>
    rw [List.nodup_cons] at hnd
    rw [List.foldl_cons, ih _ hnd.2]
    by_cases hmem : t = p
    · subst hmem
      have hni : t ∉ rest := hnd.1
      have hrest : ¬(t ∈ rest ∧ P t) := fun hcon => hni hcon.1
      by_cases hP : P t <;>
        simp [hP, hrest, hni, bus_put_message, ThreadsafeQueue.push]
    · have hbs : (if P p then bus_put_message bs p msg else bs) t = bs t := by
        by_cases hP : P p <;> simp [hP, bus_put_message, hmem]
      rw [hbs]
      simp [List.mem_cons, hmem]

/-- Helper: draining a queue that holds no terminator empties it. -/
lemma drain_loop_eq_nil (q : ThreadsafeQueue.Queue SubsystemIPC)
    (h : ∀ x ∈ q, x ≠ none) : drain_loop q = [] := by
  induction q with
  | nil => rfl
  | cons x rest ih =>
    cases x with
    | none => exact absurd rfl (h none (List.mem_cons_self _ _))
    | some e =>
      rw [drain_loop]
      exact ih fun y hy => h y (List.mem_cons_of_mem _ hy)

/-- Helper: the default `on_parent` only pushes a trigger on the
subsystem's own bus; the cancel flag and the parent set are
untouched. -/
lemma on_parent_preserves (self : Subsystem) (event : SubsystemIPC) :
    (on_parent self event).m_cancel_flag = self.m_cancel_flag
      ∧ (on_parent self event).m_parents = self.m_parents := by
  unfold on_parent
  cases event.state <;>
    simp [start, stop, error, destroy, put_message]

/-- Claim C1, counterexample: the claim states that the wait-for-parents
gate passes on the last disjunct only when every parent is RUNNING or
DESTROY, and that a parent observed in STOPPED does not satisfy it.
The header variant of the gate (subsystem.hh lines 322-351) refutes
this: for a non-cancelled INIT subsystem with single parent 7 whose
registry state is STOPPED, the gate returns true although the parent
is in none of the claimed states. -/
theorem c1_gate_claim_false :
    (wait_for_parents_hh reg_parent_stopped sub_one_parent).1 = true
      ∧ decide (reg_parent_stopped 7 = RUNNING ∨ reg_parent_stopped 7 = DESTROY)
          = false
      ∧ sub_one_parent.m_parents = [7]
      ∧ sub_one_parent.m_state = INIT
      ∧ sub_one_parent.m_cancel_flag = false := by
  decide

/-- Claim C1, amended: both gate variants return the claimed
disjunction of parents-empty, own state DESTROY, cancel flag, and an
all-parents check, and a passing cancel disjunct resets the flag; the
final disjunct is variant-specific: the subsystem.cc gate requires
every parent's registry state to be RUNNING or DESTROY, while the
subsystem.hh gate accepts every parent whose registry state is neither
INIT nor DESTROY (so STOPPED and ERROR parents also satisfy it). -/
theorem c1_gate_characterization :
    (∀ reg self, (wait_for_parents reg self).1 =
        (!has_parents self || decide (self.m_state = DESTROY) || self.m_cancel_flag
          || self.m_parents.all fun p => decide (reg p = RUNNING ∨ reg p = DESTROY)))
    ∧ (∀ reg self, (wait_for_parents_hh reg self).1 =
        (decide (self.m_parents.length = 0) || decide (self.m_state = DESTROY)
          || self.m_cancel_flag
          || self.m_parents.all fun p => decide (reg p ≠ INIT ∧ reg p ≠ DESTROY)))
    ∧ (∀ reg self, has_parents self = true → self.m_state ≠ DESTROY →
        self.m_cancel_flag = true →
        wait_for_parents reg self = (true, set_cancel_flag self false)
          ∧ wait_for_parents_hh reg self = (true, set_cancel_flag self false)) := by
  refine ⟨fun reg self => ?_, fun reg self => ?_, fun reg self h1 h2 h3 => ?_⟩
  · unfold wait_for_parents
    by_cases h1 : has_parents self
    · by_cases h2 : self.m_state = DESTROY
      · simp [h1, h2]
      · by_cases h3 : self.m_cancel_flag <;> simp [h1, h2, h3]
    · simp [h1]
  · unfold wait_for_parents_hh
    by_cases h1 : self.m_parents.length = 0
    · simp [h1]
    · by_cases h2 : self.m_state = DESTROY
      · simp [h1, h2]
      · by_cases h3 : self.m_cancel_flag <;> simp [h1, h2, h3]
  · have hlen : ¬self.m_parents.length = 0 := by
      intro hcon
      rw [List.length_eq_zero] at hcon
      simp [has_parents, hcon] at h1
    constructor
    · unfold wait_for_parents
      simp [h1, h2, h3]
    · unfold wait_for_parents_hh
      simp [hlen, h2, h3]

/-- Claim C1, witness: on a subsystem with a parent, INIT state and the
cancel flag raised, both gates pass and reset the flag. -/
theorem c1_gate_characterization_witness :
    wait_for_parents reg_parent_stopped cancel_sub
        = (true, set_cancel_flag cancel_sub false)
      ∧ wait_for_parents_hh reg_parent_stopped cancel_sub
        = (true, set_cancel_flag cancel_sub false) :=
  c1_gate_characterization.2.2 reg_parent_stopped cancel_sub rfl (by decide) rfl

/-- Claim C3, counterexample: with one event pending at the time of
`terminate()`, the next `wait_and_pop` returns that ordinary event and
not the closed marker, and a second `terminate()` changes the queue (a
second null marker is enqueued), so terminate is not idempotent. -/
theorem c3_terminate_claim_false :
    ThreadsafeQueue.wait_and_pop (ThreadsafeQueue.terminate [some sample_event])
        = some (some sample_event, [none])
      ∧ ThreadsafeQueue.terminate
            (ThreadsafeQueue.terminate ([] : ThreadsafeQueue.Queue SubsystemIPC))
          ≠ ThreadsafeQueue.terminate ([] : ThreadsafeQueue.Queue SubsystemIPC) := by
  decide

/-- Claim C3, amended: `terminate()` enqueues one closed marker behind
the pending events; `wait_and_pop` first returns the pending events in
FIFO order, then returns the marker exactly once; once the queue is
empty again a further `wait_and_pop` blocks (modelled `none`); and a
second `terminate()` is not idempotent, it enqueues a second marker. -/
theorem c3_terminate_fifo (q : ThreadsafeQueue.Queue SubsystemIPC) :
    ThreadsafeQueue.terminate q = q ++ [none]
      ∧ (∀ e rest, q = some e :: rest →
          ThreadsafeQueue.wait_and_pop (ThreadsafeQueue.terminate q)
            = some (some e, ThreadsafeQueue.terminate rest))
      ∧ (q = [] →
          ThreadsafeQueue.wait_and_pop (ThreadsafeQueue.terminate q)
            = some (none, []))
      ∧ ThreadsafeQueue.wait_and_pop ([] : ThreadsafeQueue.Queue SubsystemIPC) = none
      ∧ ThreadsafeQueue.terminate (ThreadsafeQueue.terminate q) = q ++ [none, none] := by
  refine ⟨rfl, fun e rest hq => ?_, fun hq => ?_, rfl, ?_⟩
  · subst hq
    rfl
  · subst hq
    rfl
  · simp [ThreadsafeQueue.terminate, ThreadsafeQueue.push_term]

/-- Claim C3, witness: concrete runs of the amended statement on a
one-event queue and on an empty queue. -/
theorem c3_terminate_fifo_witness :
    ThreadsafeQueue.wait_and_pop (ThreadsafeQueue.terminate [some sample_event])
        = some (some sample_event, ThreadsafeQueue.terminate [])
      ∧ ThreadsafeQueue.wait_and_pop
            (ThreadsafeQueue.terminate ([] : ThreadsafeQueue.Queue SubsystemIPC))
          = some (none, []) :=
  ⟨(c3_terminate_fifo [some sample_event]).2.1 sample_event [] rfl,
   (c3_terminate_fifo []).2.2.1 rfl⟩

/-- Claim C4, counterexample: push an event on a terminated (empty)
bus; the first `try_pop` consumes the marker and the second `try_pop`
returns the pushed event, so the event is not silently dropped. -/
theorem c4_push_after_terminate_claim_false :
    (ThreadsafeQueue.try_pop
        (ThreadsafeQueue.try_pop
          (ThreadsafeQueue.push
            (ThreadsafeQueue.terminate ([] : ThreadsafeQueue.Queue SubsystemIPC))
            sample_event)).2).1
      = some sample_event := by
  decide

/-- Claim C4, amended: `push` is oblivious to termination; an event
pushed after `terminate()` is enqueued behind the closed marker and is
returned by pops once the marker has been consumed; the push itself
surfaces no error (it is a total operation). -/
theorem c4_push_enqueues_after_terminate (q : ThreadsafeQueue.Queue SubsystemIPC)
    (e : SubsystemIPC) :
    ThreadsafeQueue.push (ThreadsafeQueue.terminate q) e = q ++ [none, some e]
      ∧ (q = [] →
          ThreadsafeQueue.try_pop (ThreadsafeQueue.push (ThreadsafeQueue.terminate q) e)
              = (none, [some e])
            ∧ ThreadsafeQueue.try_pop [some e] = (some e, [])) := by
  refine ⟨?_, fun hq => ?_⟩
  · simp [ThreadsafeQueue.push, ThreadsafeQueue.terminate, ThreadsafeQueue.push_term]
  · subst hq
    exact ⟨rfl, rfl⟩

/-- Claim C4, witness: the amended statement run on the empty queue and
the fixture event. -/
theorem c4_push_enqueues_after_terminate_witness :
    ThreadsafeQueue.try_pop
        (ThreadsafeQueue.push
          (ThreadsafeQueue.terminate ([] : ThreadsafeQueue.Queue SubsystemIPC))
          sample_event)
        = (none, [some sample_event])
      ∧ ThreadsafeQueue.try_pop [some sample_event] = (some sample_event, []) :=
  (c4_push_enqueues_after_terminate [] sample_event).2 rfl

/-- Claim C5, counterexample: in the SELF/DESTROY dispatch order,
`m_bus.terminate()` (inside `stop_bus`) is the fourth action and
`commit_state(DESTROY)` only happens afterwards; no commit action
precedes the terminate, so the state is not committed before the bus
is terminated, contrary to the claim. -/
theorem c5_commit_before_terminate_claim_false :
    (handle_self_event_trace DESTROY).get? 3 = some Act.bus_terminate
      ∧ Act.commit DESTROY ∉ (handle_self_event_trace DESTROY).take 4
      ∧ Act.commit DESTROY ∈ handle_self_event_trace DESTROY := by
  decide

/-- Claim C5, amended: while handling the SELF event with target
DESTROY the worker sets the cancel flag, runs `on_destroy()`, then
`stop_bus()` (drain, `terminate()`, set the cancel flag again) and
only after all of that calls `commit_state(DESTROY)`; the bus is thus
terminated before, not after, the DESTROY state is committed. -/
theorem c5_destroy_path_order :
    handle_self_event_trace DESTROY
      = [Act.set_cancel true, Act.call_on_destroy, Act.bus_drain,
         Act.bus_terminate, Act.set_cancel true, Act.commit DESTROY] := by
  decide

/-- Claim C6, counterexample: a PARENT event carrying ERROR leaves the
cancel flag untouched (here false), contrary to the claim that ERROR
sets it to true; only DESTROY touches the flag. -/
theorem c6_parent_error_claim_false :
    (handle_parent_event sub_one_parent ev_parent_error).m_cancel_flag = false
      ∧ sub_one_parent.m_cancel_flag = false
      ∧ ev_parent_error.state = ERROR := by
  decide

/-- Claim C6, amended: on a PARENT event with target DESTROY the worker
sets the cancel flag and removes the sender from the parent set, then
invokes `on_parent`; on every other target (including ERROR) it
invokes `on_parent` directly, leaving the cancel flag unchanged. -/
theorem c6_parent_event_effects (self : Subsystem) (event : SubsystemIPC) :
    (event.state = DESTROY →
        handle_parent_event self event
            = on_parent (remove_parent (set_cancel_flag self true) event.tag) event
          ∧ (handle_parent_event self event).m_cancel_flag = true
          ∧ (handle_parent_event self event).m_parents
              = self.m_parents.erase event.tag)
    ∧ (event.state ≠ DESTROY →
        handle_parent_event self event = on_parent self event
          ∧ (handle_parent_event self event).m_cancel_flag = self.m_cancel_flag) := by
  constructor
  · intro h
    have heq : handle_parent_event self event
        = on_parent (remove_parent (set_cancel_flag self true) event.tag) event := by
      unfold handle_parent_event
      rw [h]
    refine ⟨heq, ?_, ?_⟩
    · rw [heq, (on_parent_preserves _ _).1]
      simp [remove_parent, set_cancel_flag]
    · rw [heq, (on_parent_preserves _ _).2]
      simp [remove_parent, set_cancel_flag]
  · intro h
    have heq : handle_parent_event self event = on_parent self event := by
      unfold handle_parent_event
      cases hst : event.state <;> simp_all
    exact ⟨heq, by rw [heq, (on_parent_preserves _ _).1]⟩

/-- Claim C6, witness: the amended statement run on the fixture
subsystem for a PARENT/DESTROY and a PARENT/ERROR event. -/
theorem c6_parent_event_effects_witness :
    ((handle_parent_event sub_one_parent ev_parent_destroy).m_cancel_flag = true
        ∧ (handle_parent_event sub_one_parent ev_parent_destroy).m_parents
            = sub_one_parent.m_parents.erase 7)
      ∧ (handle_parent_event sub_one_parent ev_parent_error).m_cancel_flag
          = sub_one_parent.m_cancel_flag :=
  ⟨⟨((c6_parent_event_effects sub_one_parent ev_parent_destroy).1 rfl).2.1,
    ((c6_parent_event_effects sub_one_parent ev_parent_destroy).1 rfl).2.2⟩,
   ((c6_parent_event_effects sub_one_parent ev_parent_error).2 (by decide)).2⟩

/-- Claim C7, counterexample: handling a SELF event with target STOPPED
performs no cancel-flag write at all, contrary to the claim that the
flag is set to true between `on_stop()` and `commit_state(STOPPED)`. -/
theorem c7_stop_sets_cancel_claim_false :
    Act.set_cancel true ∉ handle_self_event_trace STOPPED := by
  decide

/-- Claim C7, amended: on a SELF event with target STOPPED the worker
invokes `on_stop()` and then calls `commit_state(STOPPED)`; the cancel
flag is not written on this path, and on the state level the dispatch
is exactly `commit_state` towards STOPPED. -/
theorem c7_self_stopped_trace :
    handle_self_event_trace STOPPED = [Act.call_on_stop, Act.commit STOPPED]
      ∧ (∀ self w (event : SubsystemIPC), event.state = STOPPED →
          handle_self_event self w event = commit_state self w STOPPED) := by
  refine ⟨by decide, fun self w event h => ?_⟩
  unfold handle_self_event
  rw [h]

/-- Claim C7, witness: the amended statement run on the fixture
subsystem and the SELF/STOPPED fixture event. -/
theorem c7_self_stopped_trace_witness :
    handle_self_event sub_one_parent w0 ev_self_stopped
      = commit_state sub_one_parent w0 STOPPED :=
  c7_self_stopped_trace.2 sub_one_parent w0 ev_self_stopped rfl

/-- Claim C9: the capacity assertion on the handle-insert path is
inverted in the code: `assert(map_ref.size() >= m_max_subsystems)`
asserts that the registry is already at or above capacity, so the
asserted condition is false (the assertion fires) for every insert
into a registry that is not yet full, e.g. 0 entries with the default
maximum of 16, and true when the registry is full.  The assert's own
message, "Attempting to exceed max number of subsystems", documents
the opposite intent, so the code, not the claim, is wrong. -/
theorem c9_capacity_assert_inverted :
    capacity_assert_cond 0 16 = false
      ∧ capacity_assert_cond 15 16 = false
      ∧ capacity_assert_cond 16 16 = true := by
  decide

/-- Claim C2: `commit_state` returns immediately with nothing changed
whenever the target equals the current state or the current state is
DESTROY, and consequently a subsystem whose state is DESTROY still
reads DESTROY after any `commit_state` call (no resurrection; the
state field is written nowhere else in the worker). -/
theorem c2_commit_fast_return :
    (∀ (self : Subsystem) (w : World) (s : SubsystemState),
        self.m_state = s ∨ self.m_state = DESTROY →
        commit_state self w s = some (self, w))
    ∧ (∀ (self : Subsystem) (w : World) (s : SubsystemState),
        self.m_state = DESTROY →
        get_state ((commit_state self w s).getD (self, w)).1 = DESTROY) := by
  have hfast : ∀ (self : Subsystem) (w : World) (s : SubsystemState),
      self.m_state = s ∨ self.m_state = DESTROY →
      commit_state self w s = some (self, w) := by
    intro self w s h
    unfold commit_state test_fn
    rcases h with h | h
    · simp [h]
    · by_cases hs : self.m_state = s <;> simp [h, hs]
  refine ⟨hfast, fun self w s h => ?_⟩
  rw [hfast self w s (Or.inr h)]
  simpa [get_state] using h

/-- Claim C2, witness: a DESTROY subsystem is left unchanged by a
commit towards RUNNING and still reads DESTROY. -/
theorem c2_commit_fast_return_witness :
    commit_state destroyed_sub w0 RUNNING = some (destroyed_sub, w0)
      ∧ get_state ((commit_state destroyed_sub w0 RUNNING).getD
            (destroyed_sub, w0)).1 = DESTROY :=
  ⟨c2_commit_fast_return.1 destroyed_sub w0 RUNNING (Or.inr rfl),
   c2_commit_fast_return.2 destroyed_sub w0 RUNNING rfl⟩

/-- Claim C10: on a bus holding only ordinary pending events (the
normal destroy-path situation: the terminator is only ever pushed by
`stop_bus` itself), `stop_bus` discards every pending event and leaves
exactly the terminator, with the cancel flag set; the worker's next
`wait_and_pop` then immediately returns the closed marker, so none of
the discarded events is ever dispatched to a handler.  The trace
conjuncts record that the drain happens before the terminator push on
the SELF/DESTROY path. -/
theorem c10_stop_bus_drops_pending (self : Subsystem)
    (h : ∀ x ∈ self.m_bus, x ≠ none) :
    (stop_bus self).m_bus = [none]
      ∧ (stop_bus self).m_cancel_flag = true
      ∧ ThreadsafeQueue.wait_and_pop (stop_bus self).m_bus = some (none, [])
      ∧ (∀ e : SubsystemIPC, some e ∉ (stop_bus self).m_bus)
      ∧ (handle_self_event_trace DESTROY).get? 2 = some Act.bus_drain
      ∧ (handle_self_event_trace DESTROY).get? 3 = some Act.bus_terminate := by
  have hb : (stop_bus self).m_bus = [none] := by
    unfold stop_bus
    simp [drain_loop_eq_nil self.m_bus h, ThreadsafeQueue.terminate,
      ThreadsafeQueue.push_term]
  refine ⟨hb, rfl, by rw [hb]; rfl, fun e => by rw [hb]; simp, by decide, by decide⟩

/-- Claim C10, witness: a bus with two pending ordinary events is left
holding exactly the terminator. -/
theorem c10_stop_bus_drops_pending_witness :
    (stop_bus busy_sub).m_bus = [none]
      ∧ (stop_bus busy_sub).m_cancel_flag = true :=
  ⟨(c10_stop_bus_drops_pending busy_sub (by decide)).1,
   (c10_stop_bus_drops_pending busy_sub (by decide)).2.1⟩

/-- Claim C8: when `commit_state` passes the fast check and its gate
predicate holds at the evaluation point, the commit happens: the
subsystem's state becomes the new state, the registry maps its tag to
the new state, and the bus of every tag `t` receives exactly the
fan-out the claim describes — a `{CHILD, tag, new_state}` event iff
`t` is a parent whose observed (post-update) registry state is
RUNNING, then a `{PARENT, tag, new_state}` event iff `t` is a child
whose observed registry state is not DESTROY, and nothing on any other
bus. -/
theorem c8_commit_fanout (self : Subsystem) (w : World) (new_state : SubsystemState)
    (htest : test_fn self.m_state new_state = true)
    (hgate : (wait_for_parents w.reg self).1 = true)
    (hp : self.m_parents.Nodup) (hc : self.m_children.Nodup) (t : SubsystemTag) :
    (commit_state self w new_state).isSome = true
      ∧ ((commit_state self w new_state).getD (self, w)).1.m_state = new_state
      ∧ ((commit_state self w new_state).getD (self, w)).2.reg t
          = (if t = self.m_tag then new_state else w.reg t)
      ∧ ((commit_state self w new_state).getD (self, w)).2.buses t
          = w.buses t
            ++ (if t ∈ self.m_parents
                  ∧ (if t = self.m_tag then new_state else w.reg t) = RUNNING
                then [some ⟨IPCFrom.CHILD, self.m_tag, new_state⟩] else [])
            ++ (if t ∈ self.m_children
                  ∧ (if t = self.m_tag then new_state else w.reg t) ≠ DESTROY
                then [some ⟨IPCFrom.PARENT, self.m_tag, new_state⟩] else []) := by
  have hcs : commit_state self w new_state
      = some (do_commit (wait_for_parents w.reg self).2 w new_state) := by
    unfold commit_state
    simp [htest, hgate]
  obtain ⟨htag, hpar, hchi⟩ := wait_for_parents_snd_fields w.reg self
  rw [hcs]
  simp only [Option.isSome_some, Option.getD_some]
  refine ⟨trivial, rfl, ?_, ?_⟩
  · simp only [do_commit, htag]
  · simp only [do_commit, for_all_active_parents, for_all_active_children,
      htag, hpar, hchi]
    have h1 := foldl_bus_put_filter
      (fun p => (if p = self.m_tag then new_state else w.reg p) = RUNNING)
      ⟨IPCFrom.CHILD, self.m_tag, new_state⟩ self.m_parents w.buses hp t
    have h2 := foldl_bus_put_filter
      (fun c => (if c = self.m_tag then new_state else w.reg c) ≠ DESTROY)
      ⟨IPCFrom.PARENT, self.m_tag, new_state⟩ self.m_children
      (List.foldl
        (fun bs p =>
          if (if p = self.m_tag then new_state else w.reg p) = RUNNING
          then bus_put_message bs p ⟨IPCFrom.CHILD, self.m_tag, new_state⟩ else bs)
        w.buses self.m_parents)
      hc t
    rw [h2, h1, List.append_assoc]

/-- Claim C8, witness: committing RUNNING on the fixture subsystem
(parent 2 RUNNING, child 3 INIT) delivers exactly one CHILD event to
parent 2's bus, exactly one PARENT event to child 3's bus, and nothing
to any other bus (tag 4 checked). -/
theorem c8_commit_fanout_witness :
    ((commit_state fan_sub fan_world RUNNING).getD (fan_sub, fan_world)).2.buses 2
        = [some ⟨IPCFrom.CHILD, 1, RUNNING⟩]
      ∧ ((commit_state fan_sub fan_world RUNNING).getD (fan_sub, fan_world)).2.buses 3
          = [some ⟨IPCFrom.PARENT, 1, RUNNING⟩]
      ∧ ((commit_state fan_sub fan_world RUNNING).getD (fan_sub, fan_world)).2.buses 4
          = [] := by
  have h2 := (c8_commit_fanout fan_sub fan_world RUNNING (by decide) (by decide)
    (by decide) (by decide) 2).2.2.2
  have h3 := (c8_commit_fanout fan_sub fan_world RUNNING (by decide) (by decide)
    (by decide) (by decide) 3).2.2.2
  have h4 := (c8_commit_fanout fan_sub fan_world RUNNING (by decide) (by decide)
    (by decide) (by decide) 4).2.2.2
  exact ⟨h2.trans (by decide), h3.trans (by decide), h4.trans (by decide)⟩
